import Mathlib

/-!
Verification of the notification / zone-membership core of the SeLigaAi app
(`src/services/notificationService.ts`, `src/services/storageService.ts`).

The AsyncStorage-backed state is embedded as an explicit record `St`; each
TypeScript function becomes a Lean function threading that state.  Times are
modelled as integers (milliseconds); a stored ISO date string compares the
same way its underlying instant does, so `now < new Date(mutedUntil)` becomes
integer `<`.  External effects (notification delivery and dismissal) are
recorded in append-only logs inside the state.  A storage read that may be
absent or throw is modelled by `ReadResult`.
-/

namespace SeLigaAi

/-- Embeds `NotificationSettings` from notificationService.ts: permanent mute flag,
optional timed-mute expiry instant, and per-alert muted ids. -/
structure NotificationSettings where
  isMuted : Bool
  mutedUntil : Option Int
  mutedAlertIds : List String
  deriving Repr, DecidableEq

/-- The default settings object returned by `getNotificationSettings` when
nothing is stored or the read throws. -/
def defaultSettings : NotificationSettings :=
  { isMuted := false, mutedUntil := none, mutedAlertIds := [] }

/-- Embeds `ActiveNotification` record: delivered-notification handle, zone id,
timestamp. -/
structure ActiveNotification where
  notificationId : String
  alertPointId : String
  timestamp : Int
  deriving Repr, DecidableEq

/-- Result of an AsyncStorage read: a stored value, nothing stored yet, or a
thrown error. -/
inductive ReadResult (α : Type) where
  | ok : Option α → ReadResult α
  | err : ReadResult α
  deriving Repr, DecidableEq

/-- Embeds `getNotificationSettings`: returns the stored settings when present, and
the default object when nothing is stored or the read throws. -/
def getNotificationSettings : ReadResult NotificationSettings → NotificationSettings
  | .ok (some s) => s
  | .ok none => defaultSettings
  | .err => defaultSettings

/-- The full persisted + effect state threaded through the service functions.
`insideZones` is the `inside_zones` list, `settings` the
`notification_settings` document, `activeNotifications` the
`active_notifications` list; `history` logs appended history entries (zone
ids, newest first, as `unshift` does), `delivered` logs delivered
notifications, `dismissedHandles` logs handles passed to
`dismissNotificationAsync`; `nextHandle` generates fresh notification ids and
`now` is the current clock reading. -/
structure St where
  insideZones : List String
  settings : NotificationSettings
  activeNotifications : List ActiveNotification
  history : List String
  delivered : List String
  dismissedHandles : List String
  nextHandle : Nat
  now : Int
  deriving Repr, DecidableEq

/-- Embeds `addInsideZone`: push the id onto the stored list only when absent. -/
def addInsideZone (zoneId : String) (zones : List String) : List String :=
  if zones.contains zoneId then zones else zones ++ [zoneId]

/-- Embeds `removeInsideZone`: keep exactly the entries different from the id. -/
def removeInsideZone (zoneId : String) (zones : List String) : List String :=
  zones.filter (fun id => id ≠ zoneId)

/-- Embeds `removeActiveNotification`: drop every registry record for the zone. -/
def removeActiveNotification (alertPointId : String)
    (l : List ActiveNotification) : List ActiveNotification :=
  l.filter (fun n => n.alertPointId ≠ alertPointId)

/-- Embeds `dismissNotificationForZone`: find the first registry record for the
zone; when found, dismiss its handle and remove the registry entry; when not
found, do nothing. -/
def dismissNotificationForZone (alertPointId : String) (s : St) : St :=
  match s.activeNotifications.find? (fun n => n.alertPointId = alertPointId) with
  | some n =>
      { s with
        dismissedHandles := s.dismissedHandles ++ [n.notificationId],
        activeNotifications := removeActiveNotification alertPointId s.activeNotifications }
  | none => s

/-- Embeds `checkZoneEntry`: read the membership list; on a fresh entry add the id
and report `true` (ENTERED); on a fresh exit remove the id and dismiss the
zone's notification, reporting `false`; otherwise report `false` and leave
the state untouched. -/
def checkZoneEntry (alertPointId : String) (isInside : Bool) (s : St) : Bool × St :=
  let wasInside := s.insideZones.contains alertPointId
  if isInside && !wasInside then
    (true, { s with insideZones := addInsideZone alertPointId s.insideZones })
  else if !isInside && wasInside then
    (false,
      dismissNotificationForZone alertPointId
        { s with insideZones := removeInsideZone alertPointId s.insideZones })
  else
    (false, s)

/-- Embeds `muteNotifications`: set the permanent flag; enabling it also clears the
timed mute. -/
def muteNotifications (mute : Bool) (s : NotificationSettings) : NotificationSettings :=
  let s' := { s with isMuted := mute }
  if mute then { s' with mutedUntil := none } else s'

/-- Embeds `setMuteUntil`: `null` clears the timed mute; a number sets the expiry
`minutes` minutes from now and clears the permanent flag. -/
def setMuteUntil (now : Int) (minutes : Option Int) (s : NotificationSettings) :
    NotificationSettings :=
  match minutes with
  | none => { s with mutedUntil := none }
  | some m => { s with mutedUntil := some (now + m * 60000), isMuted := false }

/-- Embeds `muteAlert`: add the id to `mutedAlertIds` when absent (mute) or filter
it out (unmute). -/
def muteAlert (alertId : String) (mute : Bool) (s : NotificationSettings) :
    NotificationSettings :=
  if mute then
    if s.mutedAlertIds.contains alertId then s
    else { s with mutedAlertIds := s.mutedAlertIds ++ [alertId] }
  else
    { s with mutedAlertIds := s.mutedAlertIds.filter (fun id => id ≠ alertId) }

/-- Embeds `isNotificationsMuted`, acting on the settings obtained from
`getNotificationSettings`: permanently muted, or timed-muted while the expiry
is in the future; an expired timed mute is lazily cleared via
`setMuteUntil null` and reported unmuted.  Returns the answer together with
the settings as persisted afterwards. -/
def isNotificationsMuted (now : Int) (s : NotificationSettings) :
    Bool × NotificationSettings :=
  if s.isMuted then (true, s)
  else
    match s.mutedUntil with
    | some t => if now < t then (true, s) else (false, setMuteUntil now none s)
    | none => (false, s)

/-- Embeds `isAlertMuted`: whether the id is in `mutedAlertIds`. -/
def isAlertMuted (alertId : String) (s : NotificationSettings) : Bool :=
  s.mutedAlertIds.contains alertId

/-- Embeds `scheduleNotification`: run the global mute check (persisting its lazy
expiry), then the per-alert check; when either suppresses, stop; otherwise
deliver a notification, register the handle in the active-notification
registry, and append to the history. -/
def scheduleNotification (alertPointId : String) (s : St) : St :=
  let checked := isNotificationsMuted s.now s.settings
  let s1 := { s with settings := checked.2 }
  if checked.1 then s1
  else if isAlertMuted alertPointId s1.settings then s1
  else
    let handle := toString s1.nextHandle
    { s1 with
      delivered := s1.delivered ++ [alertPointId],
      activeNotifications :=
        s1.activeNotifications ++ [⟨handle, alertPointId, s1.now⟩],
      history := alertPointId :: s1.history,
      nextHandle := s1.nextHandle + 1 }

/-- Embeds `dismissAllActiveNotifications`: dismiss every registered handle in list
order, then store the empty registry. -/
def dismissAllActiveNotifications (s : St) : St :=
  { s with
    dismissedHandles :=
      s.activeNotifications.foldl (fun d n => d ++ [n.notificationId]) s.dismissedHandles,
    activeNotifications := [] }

/-- Embeds `clearInsideZones`: store the empty membership list. -/
def clearInsideZones (zones : List String) : List String :=
  let _ := zones
  []

/-- Embeds `AlertPoint` from types: a circular geofence record.  Coordinates are
exact decimal values, embedded as rationals. -/
structure AlertPoint where
  id : String
  alert_type : String
  street : String
  city : String
  latitude : ℚ
  longitude : ℚ
  radius : ℚ
  created_at : String
  updated_at : String
  deriving Repr, DecidableEq

/-- Embeds `getDefaultAlertPoints` from storageService.ts: the built-in list of six
example alert points; both date fields are the current ISO instant `nowIso`. -/
def getDefaultAlertPoints (nowIso : String) : List AlertPoint :=
  [ { id := "1", alert_type := "Área de Assalto",
      street := "Avenida Getúlio Vargas", city := "Pedreiras",
      latitude := -45667/10000, longitude := -446/10, radius := 200,
      created_at := nowIso, updated_at := nowIso },
    { id := "2", alert_type := "Zona de Risco",
      street := "Rua São Pedro", city := "Pedreiras",
      latitude := -457/100, longitude := -44605/1000, radius := 150,
      created_at := nowIso, updated_at := nowIso },
    { id := "3", alert_type := "Alerta de Furto",
      street := "Praça da Matriz", city := "Pedreiras",
      latitude := -4565/1000, longitude := -44598/1000, radius := 100,
      created_at := nowIso, updated_at := nowIso },
    { id := "4", alert_type := "Área Perigosa",
      street := "Rua Principal", city := "Trizidela do Vale",
      latitude := -49833/10000, longitude := -446667/10000, radius := 180,
      created_at := nowIso, updated_at := nowIso },
    { id := "5", alert_type := "Alerta de Assalto",
      street := "Avenida Central", city := "Trizidela do Vale",
      latitude := -498/100, longitude := -447/10, radius := 150,
      created_at := nowIso, updated_at := nowIso },
    { id := "6", alert_type := "Zona de Risco",
      street := "Rua do Comércio", city := "Trizidela do Vale",
      latitude := -4985/1000, longitude := -44665/1000, radius := 120,
      created_at := nowIso, updated_at := nowIso } ]

/-- Embeds `getAllAlertPoints`: return the stored list when present; when nothing is
stored or the read throws, return the built-in defaults. -/
def getAllAlertPoints (nowIso : String) :
    ReadResult (List AlertPoint) → List AlertPoint
  | .ok (some l) => l
  | .ok none => getDefaultAlertPoints nowIso
  | .err => getDefaultAlertPoints nowIso

/-- The outcomes of feeding a sequence of `isInside` samples for one zone
through `checkZoneEntry`, threading the state. -/
def runZoneSeq (id : String) (s : St) : List Bool → List Bool
  | [] => []
  | b :: bs =>
      (checkZoneEntry id b s).1 :: runZoneSeq id (checkZoneEntry id b s).2 bs

/-- Number of `false → true` edges in a boolean sequence, given the value
assumed before the first sample. -/
def countRisingEdges (prev : Bool) : List Bool → Nat
  | [] => 0
  | b :: bs => (if b && !prev then 1 else 0) + countRisingEdges b bs

/-- A mute-settings mutation exposed by the service. -/
inductive MuteOp where
  | permanent (mute : Bool)
  | timed (now : Int) (minutes : Option Int)
  | alert (id : String) (mute : Bool)

/-- Apply one mute-settings mutation. -/
def applyMuteOp : MuteOp → NotificationSettings → NotificationSettings
  | .permanent b, s => muteNotifications b s
  | .timed now m, s => setMuteUntil now m s
  | .alert id b, s => muteAlert id b s

/-- Apply a sequence of mute-settings mutations, oldest first. -/
def applyMuteOps (ops : List MuteOp) (s : NotificationSettings) :
    NotificationSettings :=
  ops.foldl (fun s op => applyMuteOp op s) s

/-- An inside-zones mutation exposed by the service. -/
inductive ZoneOp where
  | add (id : String)
  | remove (id : String)
  | clear

/-- Apply one inside-zones mutation. -/
def applyZoneOp : ZoneOp → List String → List String
  | .add id, zs => addInsideZone id zs
  | .remove id, zs => removeInsideZone id zs
  | .clear, zs => clearInsideZones zs

/-- Apply a sequence of inside-zones mutations, oldest first. -/
def applyZoneOps (ops : List ZoneOp) (zs : List String) : List String :=
  ops.foldl (fun zs op => applyZoneOp op zs) zs

/-- A state with empty stores, used to instantiate theorems concretely. -/
def st0 : St :=
  { insideZones := [], settings := defaultSettings, activeNotifications := [],
    history := [], delivered := [], dismissedHandles := [], nextHandle := 0,
    now := 0 }

/-! ### Basic lemmas about the embedded operations -/

lemma dismissNotificationForZone_insideZones (a : String) (s : St) :
    (dismissNotificationForZone a s).insideZones = s.insideZones := by
  unfold dismissNotificationForZone
  cases s.activeNotifications.find? (fun n => n.alertPointId = a) <;> rfl

lemma mem_addInsideZone (id : String) (zs : List String) :
    id ∈ addInsideZone id zs := by
  unfold addInsideZone
  by_cases h : zs.contains id = true
  · rw [if_pos h]
    exact List.elem_iff.mp h
  · rw [if_neg h]
    exact List.mem_append_right _ (List.mem_singleton_self id)

lemma not_mem_removeInsideZone (id : String) (zs : List String) :
    id ∉ removeInsideZone id zs := by
  unfold removeInsideZone
  simp [List.mem_filter]

lemma contains_checkZoneEntry (id : String) (b : Bool) (s : St) :
    ((checkZoneEntry id b s).2).insideZones.contains id = b := by
  unfold checkZoneEntry
  cases hb : b <;> cases hw : s.insideZones.contains id <;>
    simp [hw, dismissNotificationForZone_insideZones,
      mem_addInsideZone, not_mem_removeInsideZone] <;>
    simp_all

lemma checkZoneEntry_fst (id : String) (b : Bool) (s : St) :
    (checkZoneEntry id b s).1 = (b && !(s.insideZones.contains id)) := by
  unfold checkZoneEntry
  cases hb : b <;> cases hw : s.insideZones.contains id <;> simp [hb, hw]

lemma runZoneSeq_count (id : String) (bs : List Bool) :
    ∀ (s : St) (prev : Bool), s.insideZones.contains id = prev →
      (runZoneSeq id s bs).count true = countRisingEdges prev bs := by
  induction bs with
  | nil => intro s prev _; rfl
  | cons b bs ih =>
      intro s prev h
      have hnext : ((checkZoneEntry id b s).2).insideZones.contains id = b :=
        contains_checkZoneEntry id b s
      have hfst : (checkZoneEntry id b s).1 = (b && !prev) := by
        rw [checkZoneEntry_fst, h]
      simp only [runZoneSeq, countRisingEdges, List.count_cons,
        ih (checkZoneEntry id b s).2 b hnext, hfst]
      cases b <;> cases prev <;> simp [Nat.add_comm]

lemma runZoneSeq_chain (id : String) :
    ∀ (bs : List Bool) (s : St),
      List.Chain' (fun a b => ¬(a = true ∧ b = true)) (runZoneSeq id s bs)
  | [], _ => by simp [runZoneSeq]
  | [b], s => by simp [runZoneSeq]
  | b :: c :: bs, s => by
      have htail := runZoneSeq_chain id (c :: bs) (checkZoneEntry id b s).2
      simp only [runZoneSeq] at htail ⊢
      rw [List.chain'_cons]
      refine ⟨?_, htail⟩
      rw [checkZoneEntry_fst id c, contains_checkZoneEntry id b s,
        checkZoneEntry_fst id b]
      cases b <;> simp

/-! ### Claim theorems -/

/-- C1: feeding any sequence of `isInside` booleans for a fixed zone through
`checkZoneEntry`, starting from a membership set not containing that zone,
yields exactly one ENTERED (`true` return) per `false → true` edge of the
sequence (with an assumed prior `false`), and never two consecutive ENTERED
results. -/
theorem c1_entered_counts_rising_edges (id : String) (s : St) (bs : List Bool)
    (h : s.insideZones.contains id = false) :
    (runZoneSeq id s bs).count true = countRisingEdges false bs ∧
    List.Chain' (fun a b => ¬(a = true ∧ b = true)) (runZoneSeq id s bs) :=
  ⟨runZoneSeq_count id bs s false h, runZoneSeq_chain id bs s⟩

theorem c1_entered_counts_rising_edges_witness :
    (runZoneSeq "z1" st0 [true, true, false, true]).count true =
      countRisingEdges false [true, true, false, true] ∧
    List.Chain' (fun a b => ¬(a = true ∧ b = true))
      (runZoneSeq "z1" st0 [true, true, false, true]) :=
  c1_entered_counts_rising_edges "z1" st0 [true, true, false, true] rfl

/-- A state whose membership list already holds two zones, used to
instantiate theorems concretely. -/
def stIn : St := { st0 with insideZones := ["z1", "z2"] }

/-- C2: one `checkZoneEntry` call: a fresh entry appends the id to the
persisted membership list and reports ENTERED (`true`); a fresh exit reports
no ENTERED and persists the list with the id filtered out; in the remaining
cases it reports no transition and returns the state entirely unchanged. -/
theorem c2_checkZoneEntry_step (id : String) (b : Bool) (s : St) :
    (b = true → s.insideZones.contains id = false →
      checkZoneEntry id b s =
        (true, { s with insideZones := s.insideZones ++ [id] })) ∧
    (b = false → s.insideZones.contains id = true →
      (checkZoneEntry id b s).1 = false ∧
      ((checkZoneEntry id b s).2).insideZones =
        s.insideZones.filter (fun x => x ≠ id)) ∧
    (s.insideZones.contains id = b → checkZoneEntry id b s = (false, s)) := by
  refine ⟨?_, ?_, ?_⟩
  · intro hb hw
    subst hb
    have hw' : id ∉ s.insideZones := by simpa using hw
    simp [checkZoneEntry, hw', addInsideZone]
  · intro hb hw
    subst hb
    have hw' : id ∈ s.insideZones := by simpa using hw
    simp [checkZoneEntry, hw', dismissNotificationForZone_insideZones,
      removeInsideZone]
  · intro hw
    cases b
    · have hw' : id ∉ s.insideZones := by simpa using hw
      simp [checkZoneEntry, hw']
    · have hw' : id ∈ s.insideZones := by simpa using hw
      simp [checkZoneEntry, hw']

theorem c2_checkZoneEntry_step_witness :
    checkZoneEntry "z3" true stIn =
      (true, { stIn with insideZones := ["z1", "z2", "z3"] }) ∧
    ((checkZoneEntry "z1" false stIn).1 = false ∧
      ((checkZoneEntry "z1" false stIn).2).insideZones = ["z2"]) ∧
    checkZoneEntry "z2" true stIn = (false, stIn) := by
  refine ⟨?_, ?_, ?_⟩
  · exact (c2_checkZoneEntry_step "z3" true stIn).1 rfl (by decide)
  · have h := (c2_checkZoneEntry_step "z1" false stIn).2.1 rfl (by decide)
    exact ⟨h.1, by rw [h.2]; decide⟩
  · exact (c2_checkZoneEntry_step "z2" true stIn).2.2 (by decide)

lemma muteAlert_isMuted (id : String) (b : Bool) (s : NotificationSettings) :
    (muteAlert id b s).isMuted = s.isMuted := by
  unfold muteAlert
  split_ifs <;> rfl

lemma muteAlert_mutedUntil (id : String) (b : Bool) (s : NotificationSettings) :
    (muteAlert id b s).mutedUntil = s.mutedUntil := by
  unfold muteAlert
  split_ifs <;> rfl

lemma applyMuteOp_exclusive (op : MuteOp) (s : NotificationSettings)
    (h : s.isMuted = true → s.mutedUntil = none) :
    (applyMuteOp op s).isMuted = true → (applyMuteOp op s).mutedUntil = none := by
  cases op with
  | permanent b =>
      cases b
      · intro hm
        exact absurd hm (by simp [applyMuteOp, muteNotifications])
      · intro _
        rfl
  | timed now m =>
      cases m with
      | none => intro _; rfl
      | some k =>
          intro hm
          exact absurd hm (by simp [applyMuteOp, setMuteUntil])
  | alert id b =>
      have h1 : applyMuteOp (.alert id b) s = muteAlert id b s := rfl
      rw [h1, muteAlert_isMuted, muteAlert_mutedUntil]
      exact h

lemma applyMuteOps_exclusive (ops : List MuteOp) :
    ∀ s : NotificationSettings, (s.isMuted = true → s.mutedUntil = none) →
      (applyMuteOps ops s).isMuted = true →
      (applyMuteOps ops s).mutedUntil = none := by
  induction ops with
  | nil => intro s h; exact h
  | cons op ops ih =>
      intro s h
      exact ih (applyMuteOp op s) (applyMuteOp_exclusive op s h)

/-- C3: the two global mute modes are mutually exclusive: after any sequence
of `muteNotifications`, `setMuteUntil` and `muteAlert` calls starting from
the default settings, `isMuted = true` forces `mutedUntil = null`; moreover
`muteNotifications true` always leaves `mutedUntil = null` and
`setMuteUntil` with a number always leaves `isMuted = false`. -/
theorem c3_mute_exclusion (ops : List MuteOp) :
    ((applyMuteOps ops defaultSettings).isMuted = true →
      (applyMuteOps ops defaultSettings).mutedUntil = none) ∧
    (∀ s, (muteNotifications true s).mutedUntil = none) ∧
    (∀ s (now m : Int), (setMuteUntil now (some m) s).isMuted = false) :=
  ⟨applyMuteOps_exclusive ops defaultSettings (fun _ => rfl),
   fun _ => rfl, fun _ _ _ => rfl⟩

theorem c3_mute_exclusion_witness :
    (applyMuteOps [MuteOp.timed 0 (some 30), MuteOp.permanent true]
      defaultSettings).isMuted = true ∧
    (applyMuteOps [MuteOp.timed 0 (some 30), MuteOp.permanent true]
      defaultSettings).mutedUntil = none :=
  ⟨rfl,
   (c3_mute_exclusion [MuteOp.timed 0 (some 30), MuteOp.permanent true]).1 rfl⟩

/-- C4: lazy expiry of the timed mute: with `isMuted = false` and
`mutedUntil` set, an expiry at or before `now` makes `isNotificationsMuted`
answer `false` and persist the settings with `mutedUntil` cleared, while a
strictly future expiry makes it answer `true` with the settings untouched. -/
theorem c4_lazy_expiry (now t : Int) (s : NotificationSettings)
    (hm : s.isMuted = false) (ht : s.mutedUntil = some t) :
    (t ≤ now →
      isNotificationsMuted now s = (false, { s with mutedUntil := none })) ∧
    (now < t → isNotificationsMuted now s = (true, s)) := by
  constructor
  · intro h
    simp [isNotificationsMuted, hm, ht, not_lt.mpr h, setMuteUntil]
  · intro h
    simp [isNotificationsMuted, hm, ht, h]

theorem c4_lazy_expiry_witness :
    isNotificationsMuted 5
        { isMuted := false, mutedUntil := some 5, mutedAlertIds := [] } =
      (false, { isMuted := false, mutedUntil := none, mutedAlertIds := [] }) ∧
    isNotificationsMuted 4
        { isMuted := false, mutedUntil := some 5, mutedAlertIds := [] } =
      (true, { isMuted := false, mutedUntil := some 5, mutedAlertIds := [] }) :=
  ⟨(c4_lazy_expiry 5 5 _ rfl rfl).1 (by decide),
   (c4_lazy_expiry 4 5 _ rfl rfl).2 (by decide)⟩

lemma isNotificationsMuted_snd_mutedAlertIds (now : Int)
    (s : NotificationSettings) :
    ((isNotificationsMuted now s).2).mutedAlertIds = s.mutedAlertIds := by
  unfold isNotificationsMuted
  by_cases hm : s.isMuted = true
  · simp [hm]
  · cases ht : s.mutedUntil with
    | none => simp [hm, ht]
    | some t => by_cases hlt : now < t <;> simp [hm, ht, hlt, setMuteUntil]

/-- C5: when notifications are suppressed (globally or because the zone id is
in `mutedAlertIds`), `scheduleNotification` delivers nothing, registers
nothing in the active-notification registry, and appends nothing to the
history; `checkZoneEntry`'s verdict and membership update never depend on the
mute settings, and an entry still records the zone as inside. -/
theorem c5_suppressed_frame (id : String) (s : St) (m : NotificationSettings)
    (b : Bool)
    (h : (isNotificationsMuted s.now s.settings).1 = true ∨
      s.settings.mutedAlertIds.contains id = true) :
    (scheduleNotification id s).delivered = s.delivered ∧
    (scheduleNotification id s).activeNotifications = s.activeNotifications ∧
    (scheduleNotification id s).history = s.history ∧
    (checkZoneEntry id b { s with settings := m }).1 =
      (checkZoneEntry id b s).1 ∧
    ((checkZoneEntry id b { s with settings := m }).2).insideZones =
      ((checkZoneEntry id b s).2).insideZones ∧
    ((checkZoneEntry id true s).2).insideZones.contains id = true := by
  have hframe : scheduleNotification id s =
      { s with settings := (isNotificationsMuted s.now s.settings).2 } := by
    unfold scheduleNotification
    rcases h with h1 | h2
    · simp [h1]
    · by_cases hg : (isNotificationsMuted s.now s.settings).1 = true
      · simp [hg]
      · have h2' : id ∈ s.settings.mutedAlertIds := List.elem_iff.mp h2
        simp [hg, isAlertMuted, isNotificationsMuted_snd_mutedAlertIds, h2']
  have hmem :
      (checkZoneEntry id b { s with settings := m }).1 =
        (checkZoneEntry id b s).1 ∧
      ((checkZoneEntry id b { s with settings := m }).2).insideZones =
        ((checkZoneEntry id b s).2).insideZones := by
    unfold checkZoneEntry
    by_cases hw : id ∈ s.insideZones <;>
      cases b <;>
      simp [hw, dismissNotificationForZone_insideZones]
  exact ⟨by rw [hframe], by rw [hframe], by rw [hframe], hmem.1, hmem.2,
    contains_checkZoneEntry id true s⟩

/-- A state whose settings carry a permanent mute, used to instantiate
theorems concretely. -/
def stMuted : St :=
  { st0 with
    settings := { isMuted := true, mutedUntil := none, mutedAlertIds := [] } }

theorem c5_suppressed_frame_witness :
    (scheduleNotification "z1" stMuted).delivered = stMuted.delivered ∧
    (scheduleNotification "z1" stMuted).activeNotifications =
      stMuted.activeNotifications ∧
    (scheduleNotification "z1" stMuted).history = stMuted.history ∧
    (checkZoneEntry "z1" true { stMuted with settings := defaultSettings }).1 =
      (checkZoneEntry "z1" true stMuted).1 ∧
    ((checkZoneEntry "z1" true
        { stMuted with settings := defaultSettings }).2).insideZones =
      ((checkZoneEntry "z1" true stMuted).2).insideZones ∧
    ((checkZoneEntry "z1" true stMuted).2).insideZones.contains "z1" = true :=
  c5_suppressed_frame "z1" stMuted defaultSettings true (Or.inl rfl)

/-- C6: on an exit, the first active-notification record registered for the
zone is looked up, its handle is dismissed, and the registry entries for the
zone are removed; with no record for the zone the operation dismisses nothing
and leaves the whole state unchanged. -/
theorem c6_dismiss_for_zone (id : String) (s : St) :
    (∀ n : ActiveNotification,
      s.activeNotifications.find? (fun x => x.alertPointId = id) = some n →
      dismissNotificationForZone id s =
        { s with
          dismissedHandles := s.dismissedHandles ++ [n.notificationId],
          activeNotifications :=
            s.activeNotifications.filter (fun x => x.alertPointId ≠ id) }) ∧
    (s.activeNotifications.find? (fun x => x.alertPointId = id) = none →
      dismissNotificationForZone id s = s) := by
  constructor
  · intro n hn
    unfold dismissNotificationForZone
    rw [hn]
    simp [removeActiveNotification]
  · intro hn
    unfold dismissNotificationForZone
    rw [hn]

/-- A state whose registry holds records for two zones, used to instantiate
theorems concretely. -/
def stA : St :=
  { st0 with activeNotifications := [⟨"h1", "z1", 0⟩, ⟨"h2", "z2", 0⟩] }

theorem c6_dismiss_for_zone_witness :
    dismissNotificationForZone "z1" stA =
      { stA with
        dismissedHandles := ["h1"],
        activeNotifications := [⟨"h2", "z2", 0⟩] } ∧
    dismissNotificationForZone "z9" stA = stA := by
  constructor
  · have h := (c6_dismiss_for_zone "z1" stA).1 ⟨"h1", "z1", 0⟩ (by decide)
    rw [h]
    decide
  · exact (c6_dismiss_for_zone "z9" stA).2 (by decide)

/-- C7: mute state fails open: on a settings read failure
`getNotificationSettings` returns the default settings, and both
`isNotificationsMuted` and `isAlertMuted` evaluated on that result answer
`false`, so nothing is suppressed because settings could not be read. -/
theorem c7_mute_fail_open :
    getNotificationSettings ReadResult.err = defaultSettings ∧
    (∀ now : Int,
      (isNotificationsMuted now (getNotificationSettings ReadResult.err)).1 =
        false) ∧
    (∀ id : String,
      isAlertMuted id (getNotificationSettings ReadResult.err) = false) :=
  ⟨rfl, fun _ => rfl, fun _ => rfl⟩

lemma foldl_push_handles (l : List ActiveNotification) :
    ∀ init : List String,
      l.foldl (fun d n => d ++ [n.notificationId]) init =
        init ++ l.map (fun n => n.notificationId) := by
  induction l with
  | nil => intro init; simp
  | cons x xs ih => intro init; simp [ih]

/-- C8: `dismissAllActiveNotifications` dismisses exactly the handles
currently in the active-notification registry, in order, and leaves the
registry empty. -/
theorem c8_dismiss_all (s : St) :
    (dismissAllActiveNotifications s).activeNotifications = [] ∧
    (dismissAllActiveNotifications s).dismissedHandles =
      s.dismissedHandles ++
        s.activeNotifications.map (fun n => n.notificationId) :=
  ⟨rfl, foldl_push_handles s.activeNotifications s.dismissedHandles⟩

lemma nodup_applyZoneOp (op : ZoneOp) (zs : List String) (h : zs.Nodup) :
    (applyZoneOp op zs).Nodup := by
  cases op with
  | add id =>
      show (addInsideZone id zs).Nodup
      unfold addInsideZone
      by_cases hc : zs.contains id = true
      · rw [if_pos hc]; exact h
      · rw [if_neg hc]
        have hm : id ∉ zs := fun hmem => hc (List.elem_iff.mpr hmem)
        simp [List.nodup_append, hm, h]
  | remove id => exact List.Nodup.filter _ h
  | clear => exact List.nodup_nil

lemma nodup_applyZoneOps (ops : List ZoneOp) :
    ∀ zs : List String, zs.Nodup → (applyZoneOps ops zs).Nodup := by
  induction ops with
  | nil => intro zs h; exact h
  | cons op ops ih =>
      intro zs h
      exact ih (applyZoneOp op zs) (nodup_applyZoneOp op zs h)

/-- C9: the persisted inside-zones list is duplicate-free: after any sequence
of `addInsideZone`, `removeInsideZone` and `clearInsideZones` operations
starting from the empty store, every zone id occurs at most once. -/
theorem c9_membership_duplicate_free (ops : List ZoneOp) (id : String) :
    (applyZoneOps ops []).count id ≤ 1 :=
  List.nodup_iff_count_le_one.mp (nodup_applyZoneOps ops [] List.nodup_nil) id

/-- C10: `getAllAlertPoints` returns the stored list when one was saved, and
the built-in list of 6 default alert points when nothing was ever stored or
the read throws — so an empty result can only come from an explicitly saved
empty list. -/
theorem c10_defaults_on_missing (nowIso : String) :
    getAllAlertPoints nowIso (ReadResult.ok none) =
      getDefaultAlertPoints nowIso ∧
    getAllAlertPoints nowIso ReadResult.err = getDefaultAlertPoints nowIso ∧
    (getDefaultAlertPoints nowIso).length = 6 ∧
    (∀ l, getAllAlertPoints nowIso (ReadResult.ok (some l)) = l) :=
  ⟨rfl, rfl, rfl, fun _ => rfl⟩

end SeLigaAi
